import Mathlib

/-!
Verification development for the avia_sales_api ETL subsystem.

The Python ETL code (src/app/etl/validators.py, transformers.py, loaders.py,
orchestrator.py, src/config/etl_config.py) is shallowly embedded below:

* pandas cells become the tagged type `Value` (`null` for Python `None`,
  `nan` for float NaN, `str`, `int`, and `rat` for finite floats whose exact
  value is modelled as a rational — IEEE rounding is not modelled, none of the
  verified claims depend on it);
* a pandas `Series` row becomes an association list `Row`;
* Python exceptions become `Except PyErr`; code that cannot raise is a plain
  function;
* `datetime.strptime` for the two fixed formats used by the code is modelled
  by an executable parser producing an order-preserving numeric encoding;
* the database / pydantic collaborators (`crud.create_*`, schema validation)
  are oracles passed in as function parameters.
-/

set_option maxHeartbeats 1000000

namespace AviaEtl

/-- Python scalar cell values as they occur in the ETL dataframes.
`null` is Python `None`, `nan` is float NaN (both are `pandas.isna`),
`rat q` is a finite float of exact value `q`. -/
inductive Value where
  | null
  | nan
  | str (s : String)
  | int (n : Int)
  | rat (q : Rat)
  deriving DecidableEq, Repr

/-- Python exception kinds that the embedded code can raise. -/
inductive PyErr where
  | keyError (k : String)
  | valueError
  | typeError
  | attributeError
  deriving DecidableEq, Repr

/-- Model of `pandas.isna` on scalar cells: true exactly for `None`/NaN. -/
def pyIsNA : Value → Bool
  | .null => true
  | .nan => true
  | _ => false

/-- Model of Python `str()` on cell values (`str(None) = "None"`,
`str(float("nan")) = "nan"`); the `rat` case is unused by the claims. -/
def pyStr : Value → String
  | .null => "None"
  | .nan => "nan"
  | .str s => s
  | .int n => toString n
  | .rat q => toString q

/-- Python truthiness of a cell value (`bool(float("nan"))` is `True`). -/
def pyTruthy : Value → Bool
  | .null => false
  | .nan => true
  | .str s => s ≠ ""
  | .int n => n ≠ 0
  | .rat q => q ≠ 0

/-- Whitespace characters removed by Python `str.strip()`. -/
def isPySpace (c : Char) : Bool :=
  c = ' ' || c = '\t' || c = '\n' || c = '\r' || c = '\x0b' || c = '\x0c'

/-- Model of Python `str.strip()` on the character list. -/
def stripChars (l : List Char) : List Char :=
  List.rdropWhile isPySpace (List.dropWhile isPySpace l)

/-- Model of Python `str.strip()`. -/
def stripString (s : String) : String :=
  String.mk (stripChars s.data)

/-- Model of Python `str.upper()`; only ASCII letters matter for the claims
(flight numbers, fare classes and airport codes are ASCII in every theorem). -/
def supper (s : String) : String :=
  String.mk (s.data.map Char.toUpper)

/-- Model of Python `str.lower()` (ASCII, as for `supper`). -/
def slower (s : String) : String :=
  String.mk (s.data.map Char.toLower)

/-- `DataTransformer.clean_text` (transformers.py lines 20-24):
`'' if pd.isna(text) else str(text).strip()`. -/
def clean_text (v : Value) : String :=
  if pyIsNA v then "" else stripString (pyStr v)

/-- A pandas `Series` row: association list from column name to cell value.
Labels are unique in rows produced by `DataFrame.iterrows`. -/
def Row : Type := List (String × Value)

instance : DecidableEq Row := by unfold Row; infer_instance

instance : Append Row := ⟨fun a b => List.append a b⟩

/-- First-match lookup, the label access of a `Series`. -/
def rlookup : Row → String → Option Value
  | [], _ => none
  | (k, v) :: t, k' => if k = k' then some v else rlookup t k'

/-- Python `key in row`. -/
def rhasKey (r : Row) (k : String) : Bool :=
  (rlookup r k).isSome

/-- Python `row.get(key, default)` (`row.get(key)` passes `default = null`). -/
def rget (r : Row) (k : String) (d : Value) : Value :=
  (rlookup r k).getD d

/-- Python `row[key]`: raises `KeyError` when the label is absent. -/
def rindex (r : Row) (k : String) : Except PyErr Value :=
  match rlookup r k with
  | some v => .ok v
  | none => .error (.keyError k)

/-- First-match lookup in a string-keyed dictionary. -/
def alookup {β : Type} : List (String × β) → String → Option β
  | [], _ => none
  | (k, v) :: t, k' => if k = k' then some v else alookup t k'

/-- Digit list to number; `none` when empty or containing a non-digit.
Python's underscore digit separators are not modelled (unused by claims). -/
def digitsToNat (l : List Char) : Option Nat :=
  if l.isEmpty then none
  else if l.all Char.isDigit then
    some (l.foldl (fun a c => a * 10 + (c.toNat - 48)) 0)
  else none

/-- Python `int(str)`: surrounding whitespace allowed, optional sign, digits. -/
def pyIntOfStr (s : String) : Option Int :=
  match stripChars s.data with
  | '-' :: rest => (digitsToNat rest).map (fun n => -(n : Int))
  | '+' :: rest => (digitsToNat rest).map (fun n => (n : Int))
  | l => (digitsToNat l).map (fun n => (n : Int))

/-- Python `int(value)`: floats truncate toward zero, NaN is a `ValueError`,
`None` a `TypeError`, strings are parsed. -/
def pyInt : Value → Except PyErr Int
  | .int n => .ok n
  | .rat q => .ok (q.num / (q.den : Int))
  | .nan => .error .valueError
  | .null => .error .typeError
  | .str s =>
    match pyIntOfStr s with
    | some n => .ok n
    | none => .error .valueError

/-- Result of Python `float(...)`: NaN or a finite value (exact rational;
infinities and IEEE rounding are not modelled, no claim depends on them). -/
inductive PyFloat where
  | pnan
  | pnum (q : Rat)
  deriving DecidableEq, Repr

/-- Python `float < 0` (false for NaN). -/
def pyFloatLtZero : PyFloat → Bool
  | .pnan => false
  | .pnum q => q < 0

/-- Unsigned decimal literal: `d+`, `d+.d*` or `.d+`
(exponent suffixes are not modelled, unused by claims). -/
def parseUnsignedDec (l : List Char) : Option Rat :=
  let ip := l.takeWhile Char.isDigit
  let natOf : List Char → Nat := fun d => d.foldl (fun a c => a * 10 + (c.toNat - 48)) 0
  match l.dropWhile Char.isDigit with
  | [] => if ip.isEmpty then none else some ((natOf ip : Rat))
  | '.' :: frac =>
    if frac.all Char.isDigit && !(ip.isEmpty && frac.isEmpty) then
      some ((natOf ip : Rat) + (natOf frac : Rat) / ((10 : Rat) ^ frac.length))
    else none
  | _ => none

/-- Python `float(str)`: strip whitespace, optional sign, decimal or `nan`. -/
def pyFloatOfStr (s : String) : Option PyFloat :=
  let core := stripChars s.data
  let signed := fun (neg : Bool) (body : List Char) =>
    if body.map Char.toLower = ['n', 'a', 'n'] then some PyFloat.pnan
    else (parseUnsignedDec body).map fun q => PyFloat.pnum (if neg then -q else q)
  match core with
  | '-' :: rest => signed true rest
  | '+' :: rest => signed false rest
  | l => signed false l

/-- Python `float(value)`. -/
def pyFloat : Value → Except PyErr PyFloat
  | .int n => .ok (.pnum n)
  | .rat q => .ok (.pnum q)
  | .nan => .ok .pnan
  | .null => .error .typeError
  | .str s =>
    match pyFloatOfStr s with
    | some f => .ok f
    | none => .error .valueError

/-- Greedy scan of at most `maxd` leading digits: value, count, remainder. -/
def grabDigits : Nat → List Char → Nat → Nat → Nat × Nat × List Char
  | 0, l, acc, cnt => (acc, cnt, l)
  | _ + 1, [], acc, cnt => (acc, cnt, [])
  | n + 1, c :: t, acc, cnt =>
    if c.isDigit then grabDigits n t (acc * 10 + (c.toNat - 48)) (cnt + 1)
    else (acc, cnt, c :: t)

/-- At least one and at most `maxd` digits, as `strptime`'s numeric directives. -/
def parseNum (maxd : Nat) (l : List Char) : Option (Nat × List Char) :=
  let (v, cnt, rest) := grabDigits maxd l 0 0
  if cnt = 0 then none else some (v, rest)

/-- Literal character of a `strptime` format. -/
def expectChar (c : Char) : List Char → Option (List Char)
  | x :: t => if x = c then some t else none
  | [] => none

/-- Whitespace in a `strptime` format matches one or more whitespace chars. -/
def skipSpaces : List Char → Option (List Char)
  | c :: t => if isPySpace c then some (t.dropWhile isPySpace) else none
  | [] => none

def isLeapYear (y : Nat) : Bool :=
  (y % 4 = 0 && y % 100 ≠ 0) || y % 400 = 0

def daysInMonth (y m : Nat) : Nat :=
  if m = 2 then (if isLeapYear y then 29 else 28)
  else if m = 4 ∨ m = 6 ∨ m = 9 ∨ m = 11 then 30
  else 31

/-- Order-preserving encoding of a calendar date (month < 13, day < 32). -/
def dateEnc (y m d : Nat) : Nat := (y * 13 + m) * 32 + d

/-- Order-preserving encoding of a datetime; `datetime` comparison is
lexicographic on the fields, which this mixed-radix encoding preserves. -/
def dtEnc (y m d h mi s : Nat) : Nat :=
  ((dateEnc y m d * 24 + h) * 60 + mi) * 60 + s

/-- The `%Y-%m-%d` fragment with `datetime`'s field-range validation. -/
def parseYMD (l : List Char) : Option (Nat × Nat × Nat × List Char) := do
  let (y, r1) ← parseNum 4 l
  let r2 ← expectChar '-' r1
  let (m, r3) ← parseNum 2 r2
  let r4 ← expectChar '-' r3
  let (d, r5) ← parseNum 2 r4
  if 1 ≤ y ∧ y ≤ 9999 ∧ 1 ≤ m ∧ m ≤ 12 ∧ 1 ≤ d ∧ d ≤ daysInMonth y m then
    some (y, m, d, r5)
  else none

/-- The `%H:%M:%S` fragment with `datetime`'s field-range validation. -/
def parseHMS (l : List Char) : Option (Nat × Nat × Nat × List Char) := do
  let (h, r1) ← parseNum 2 l
  let r2 ← expectChar ':' r1
  let (mi, r3) ← parseNum 2 r2
  let r4 ← expectChar ':' r3
  let (s, r5) ← parseNum 2 r4
  if h ≤ 23 ∧ mi ≤ 59 ∧ s ≤ 59 then some (h, mi, s, r5) else none

/-- The two fixed `strptime` formats used by the ETL code. -/
inductive DtFmt where
  | ymd
  | ymdhms
  deriving DecidableEq, Repr

/-- Model of `datetime.strptime(s, fmt)` for the two formats, returning the
order-preserving encoding on success, `none` on `ValueError`.
The whole string must be consumed, as in CPython. -/
def strptime : DtFmt → String → Option Nat
  | .ymd, s =>
    (parseYMD s.data).bind fun (y, m, d, rest) =>
      if rest = [] then some (dateEnc y m d) else none
  | .ymdhms, s =>
    (parseYMD s.data).bind fun (y, m, d, r) =>
      (skipSpaces r).bind fun r' =>
        (parseHMS r').bind fun (h, mi, sec, rest) =>
          if rest = [] then some (dtEnc y m d h mi sec) else none

/-- Character class `[a-zA-Z0-9._%+-]` of the email regex's local part. -/
def isEmailLocalChar (c : Char) : Bool :=
  c.isAlpha || c.isDigit || c = '.' || c = '_' || c = '%' || c = '+' || c = '-'

/-- Character class `[a-zA-Z0-9.-]` of the email regex's domain part. -/
def isEmailDomainChar (c : Char) : Bool :=
  c.isAlpha || c.isDigit || c = '.' || c = '-'

/-- The `[a-zA-Z]{2,}` tail of the email regex. -/
def isTld (l : List Char) : Bool :=
  2 ≤ l.length && l.all Char.isAlpha

/-- After one domain char: the rest matches `[a-zA-Z0-9.-]*\.[a-zA-Z]{2,}`
with the regex's backtracking folded into the disjunction. -/
def emailDomainTail : List Char → Bool
  | [] => false
  | c :: rest => (c = '.' && isTld rest) || (isEmailDomainChar c && emailDomainTail rest)

/-- The domain `[a-zA-Z0-9.-]+\.[a-zA-Z]{2,}` of the email regex. -/
def emailDomain : List Char → Bool
  | [] => false
  | c :: rest => isEmailDomainChar c && emailDomainTail rest

/-- Recognizer equivalent to the anchored email regex
`^[a-zA-Z0-9._%+-]+@[a-zA-Z0-9.-]+\.[a-zA-Z]{2,}$`: neither class contains
`@`, so the regex's `@` is the string's first `@` (`$` is modelled as true
end of string; the trailing-newline quirk of `$` is not modelled). -/
def emailMatch (l : List Char) : Bool :=
  let loc := l.takeWhile (fun c => c ≠ '@')
  match l.dropWhile (fun c => c ≠ '@') with
  | '@' :: dom => !loc.isEmpty && loc.all isEmailLocalChar && emailDomain dom
  | _ => false

/-- Character class `[0-9\s\-\(\)]` of the phone regex. -/
def isPhoneChar (c : Char) : Bool :=
  c.isDigit || isPySpace c || c = '-' || c = '(' || c = ')'

/-- Recognizer equivalent to the anchored phone regex
`^[\+]?[0-9\s\-\(\)]{10,15}$`. -/
def phoneMatch (l : List Char) : Bool :=
  let l' := match l with
    | '+' :: t => t
    | _ => l
  10 ≤ l'.length && l'.length ≤ 15 && l'.all isPhoneChar

/-- `DataValidator.validate_email` (validators.py lines 14-20). -/
def validate_email (v : Value) : Bool :=
  if pyIsNA v then true else emailMatch (pyStr v).data

/-- `DataValidator.validate_phone` (validators.py lines 22-28). -/
def validate_phone (v : Value) : Bool :=
  if pyIsNA v then true else phoneMatch (pyStr v).data

/-- `DataValidator.validate_date` (validators.py lines 30-39). -/
def validate_date (v : Value) (fmt : DtFmt) : Bool :=
  if pyIsNA v then true else (strptime fmt (pyStr v)).isSome

/-- `DataValidator.validate_future_date` (validators.py lines 41-50);
`today` is the encoded current date. -/
def validate_future_date (today : Nat) (v : Value) : Bool :=
  if pyIsNA v then true
  else
    match strptime .ymd (pyStr v) with
    | some d => today < d
    | none => false

/-- `DataValidator.validate_required_fields` (validators.py lines 63-70):
missing means absent key, `isna`, or a value whose `str` strips to empty. -/
def validate_required_fields (r : Row) (fields : List String) : List String :=
  fields.filter fun f =>
    match rlookup r f with
    | none => true
    | some v => pyIsNA v || (stripString (pyStr v) == "")

def PASSENGER_REQUIRED : List String :=
  ["first_name", "last_name", "date_of_birth", "document_type",
   "document_number", "country_of_issue"]

def FLIGHT_REQUIRED : List String :=
  ["flight_number", "departure_airport_code", "arrival_airport_code",
   "scheduled_departure", "scheduled_arrival", "total_seats"]

/-- The aggregated missing-fields message of both domain validators. -/
def missingMsg (mf : List String) : String :=
  "Отсутствуют обязательные поля: " ++ String.intercalate ", " mf

/-- `PassengerValidator.validate_passenger_row` (validators.py lines 79-108);
errors accumulate in source order, acceptance is an empty error list. -/
def validate_passenger_row (today : Nat) (r : Row) : Bool × List String :=
  let mf := validate_required_fields r PASSENGER_REQUIRED
  let e1 := if mf.isEmpty then [] else [missingMsg mf]
  let e2 :=
    if validate_date (rget r "date_of_birth" .null) .ymd then []
    else ["Неверный формат даты рождения"]
  let e3 :=
    if rhasKey r "email" && !validate_email (rget r "email" .null) then
      ["Неверный формат email"]
    else []
  let e4 :=
    if rhasKey r "phone_number" && !validate_phone (rget r "phone_number" .null) then
      ["Неверный формат номера телефона"]
    else []
  let e5 :=
    if rhasKey r "expiry_date" && pyTruthy (rget r "expiry_date" .null)
        && !validate_date (rget r "expiry_date" .null) .ymd then
      ["Неверный формат даты истечения документа"]
    else []
  let e6 :=
    if rhasKey r "expiry_date" && pyTruthy (rget r "expiry_date" .null)
        && !validate_future_date today (rget r "expiry_date" .null) then
      ["Документ просрочен"]
    else []
  let errors := e1 ++ e2 ++ e3 ++ e4 ++ e5 ++ e6
  (errors.isEmpty, errors)

/-- The arrival-after-departure `try` block of
`FlightValidator.validate_flight_row` (validators.py lines 140-147):
`strptime` `ValueError`s are swallowed, but a `KeyError` from `row[...]`
is not caught by `except (ValueError, TypeError)` and propagates. -/
def flightOrderingErrs (r : Row) : Except PyErr (List String) :=
  match rindex r "scheduled_departure" with
  | .error e => .error e
  | .ok dv =>
    match strptime .ymdhms (pyStr dv) with
    | none => .ok []
    | some dep =>
      match rindex r "scheduled_arrival" with
      | .error e => .error e
      | .ok av =>
        match strptime .ymdhms (pyStr av) with
        | none => .ok []
        | some arr =>
          .ok (if arr ≤ dep then ["Время прилета должно быть после времени вылета"] else [])

/-- The seat-count `try` block of `FlightValidator.validate_flight_row`
(validators.py lines 149-155); again a `KeyError` propagates. -/
def flightSeatsErrs (r : Row) : Except PyErr (List String) :=
  match rindex r "total_seats" with
  | .error e => .error e
  | .ok sv =>
    match pyInt sv with
    | .ok n => .ok (if n ≤ 0 then ["Количество мест должно быть положительным числом"] else [])
    | .error _ => .ok ["Неверный формат количества мест"]

/-- `FlightValidator.validate_flight_row` (validators.py lines 117-157). -/
def validate_flight_row (r : Row) : Except PyErr (Bool × List String) :=
  let mf := validate_required_fields r FLIGHT_REQUIRED
  let e1 := if mf.isEmpty then [] else [missingMsg mf]
  let e2 :=
    if rhasKey r "departure_airport_code"
        && (pyStr (rget r "departure_airport_code" .null)).length != 3 then
      ["Код аэропорта вылета должен содержать 3 символа"]
    else []
  let e3 :=
    if rhasKey r "arrival_airport_code"
        && (pyStr (rget r "arrival_airport_code" .null)).length != 3 then
      ["Код аэропорта прилета должен содержать 3 символа"]
    else []
  let e4 :=
    if validate_date (rget r "scheduled_departure" .null) .ymdhms then []
    else ["Неверный формат даты вылета"]
  let e5 :=
    if validate_date (rget r "scheduled_arrival" .null) .ymdhms then []
    else ["Неверный формат даты прилета"]
  match flightOrderingErrs r with
  | .error e => .error e
  | .ok e6 =>
    match flightSeatsErrs r with
    | .error e => .error e
    | .ok e7 =>
      let errors := e1 ++ e2 ++ e3 ++ e4 ++ e5 ++ e6 ++ e7
      .ok (errors.isEmpty, errors)

/-- `etl_config.DOCUMENT_TYPE_MAPPING` (etl_config.py lines 25-33). -/
def DOCUMENT_TYPE_MAPPING : List (String × String) :=
  [("PASSPORT_RF", "PASSPORT_RF"),
   ("INTERNATIONAL_PASSPORT", "INTERNATIONAL_PASSPORT"),
   ("BIRTH_CERTIFICATE", "BIRTH_CERTIFICATE"),
   ("MILITARY_ID", "MILITARY_ID"),
   ("SEAMAN_ID", "SEAMAN_ID"),
   ("PASSPORT", "INTERNATIONAL_PASSPORT"),
   ("PASSPORT_INTERNATIONAL", "INTERNATIONAL_PASSPORT")]

/-- `etl_config.BOOKING_STATUS_MAPPING` (etl_config.py lines 36-43). -/
def BOOKING_STATUS_MAPPING : List (String × String) :=
  [("PENDING", "PENDING"), ("CONFIRMED", "CONFIRMED"), ("PAID", "PAID"),
   ("CANCELLED", "CANCELLED"), ("REFUNDED", "REFUNDED"), ("EXPIRED", "EXPIRED")]

/-- `etl_config.FARE_CLASS_MAPPING` (etl_config.py lines 46-52). -/
def FARE_CLASS_MAPPING : List (String × String) :=
  [("ECONOMY", "ECONOMY"), ("BUSINESS", "BUSINESS"), ("FIRST", "FIRST"),
   ("ECON", "ECONOMY"), ("BUS", "BUSINESS")]

/-- Python `value.upper()`: `AttributeError` on a non-string. -/
def valueUpper : Value → Except PyErr String
  | .str s => .ok (supper s)
  | _ => .error .attributeError

instance : Repr Row := by unfold Row; infer_instance

/-- A `RejectedRecord`: the cleaned row's fields plus the accumulated error
list (`_errors`) and the originating row index (`_original_index`), as built
by each transformer's error branch. -/
structure ErrRow where
  fields : Row
  errors : List String
  origIndex : Nat
  deriving DecidableEq, Repr

/-- The text-cleaning loop at the head of each transformer:
`for col in cols: if col in row: row[col] = clean_text(row[col])`.
Labels of an `iterrows` row are unique, so label assignment is a map. -/
def cleanCols (cols : List String) (r : Row) : Row :=
  r.map fun kv => if cols.contains kv.1 then (kv.1, .str (clean_text kv.2)) else kv

def PASSENGER_CLEAN_COLS : List String :=
  ["first_name", "last_name", "email", "phone_number",
   "document_type", "document_number", "country_of_issue"]

def FLIGHT_CLEAN_COLS : List String :=
  ["flight_number", "departure_airport_code", "arrival_airport_code", "aircraft_type"]

def FARE_CLEAN_COLS : List String := ["fare_class", "fare_conditions"]

/-- Cleaning step of `PassengerDataTransformer.transform_passenger_data`
(transformers.py lines 48-52). -/
def cleanPassengerRow (r : Row) : Row := cleanCols PASSENGER_CLEAN_COLS r

/-- Cleaning step of `FlightDataTransformer.transform_flight_data`
(transformers.py lines 131-134). -/
def cleanFlightRow (r : Row) : Row := cleanCols FLIGHT_CLEAN_COLS r

/-- Cleaning step of `FareDataTransformer.transform_fare_data`
(transformers.py lines 183-188). -/
def cleanFareRow (r : Row) : Row := cleanCols FARE_CLEAN_COLS r

/-- The `AcceptedRecord` built by `_transform_valid_passenger`. -/
structure PassengerOut where
  passenger_id : Value
  first_name : Value
  last_name : Value
  date_of_birth : Value
  email : Value
  phone_number : Value
  document_type : String
  document_number : Value
  expiry_date : Value
  country_of_issue : Value
  flight_number : Option Value
  fare_class : Option String
  booking_status : Option String
  deriving DecidableEq, Repr

/-- `PassengerDataTransformer._transform_valid_passenger` (transformers.py
lines 74-114); `uuid` is the oracle for `generate_uuid`. -/
def transformValidPassenger (uuid : String) (r : Row) : Except PyErr PassengerOut := do
  let pid :=
    if rhasKey r "passenger_id" && !pyIsNA (rget r "passenger_id" .null) then
      rget r "passenger_id" .null
    else .str uuid
  let fn ← rindex r "first_name"
  let ln ← rindex r "last_name"
  let dob ← rindex r "date_of_birth"
  let em := rget r "email" .null
  let ph := rget r "phone_number" .null
  let dt := supper (clean_text (rget r "document_type" (.str "")))
  let dtm := (alookup DOCUMENT_TYPE_MAPPING dt).getD dt
  let dn ← rindex r "document_number"
  let ed := rget r "expiry_date" .null
  let ci ← rindex r "country_of_issue"
  let fno := if rhasKey r "flight_number" then some (rget r "flight_number" .null) else none
  let fco ←
    if rhasKey r "fare_class" then do
      let u ← valueUpper (rget r "fare_class" .null)
      pure (some ((alookup FARE_CLASS_MAPPING u).getD u))
    else pure none
  let bso ←
    if rhasKey r "booking_status" then do
      let u ← valueUpper (rget r "booking_status" .null)
      pure (some ((alookup BOOKING_STATUS_MAPPING u).getD u))
    else pure none
  .ok ⟨pid, fn, ln, dob, em, ph, dtm, dn, ed, ci, fno, fco, bso⟩

/-- The `AcceptedRecord` built by `_transform_valid_flight`. -/
structure FlightOut where
  flight_id : String
  flight_number : String
  departure_airport_code : String
  arrival_airport_code : String
  scheduled_departure : Value
  scheduled_arrival : Value
  aircraft_type : Value
  total_seats : Int
  deriving DecidableEq, Repr

/-- `FlightDataTransformer._transform_valid_flight` (transformers.py
lines 154-170). -/
def transformValidFlight (uuid : String) (r : Row) : Except PyErr FlightOut := do
  let fnv ← rindex r "flight_number"
  let fn ← valueUpper fnv
  let dav ← rindex r "departure_airport_code"
  let da ← valueUpper dav
  let aav ← rindex r "arrival_airport_code"
  let aa ← valueUpper aav
  let sd ← rindex r "scheduled_departure"
  let sa ← rindex r "scheduled_arrival"
  let at' := rget r "aircraft_type" .null
  let sv ← rindex r "total_seats"
  let seats ← pyInt sv
  .ok ⟨uuid, fn, da, aa, sd, sa, at', seats⟩

def FARE_REQUIRED : List String :=
  ["flight_number", "fare_class", "price", "available_seats"]

/-- `FareDataTransformer._validate_fare_row` (transformers.py lines 207-237).
The required check here tests only absence/`isna` (no blank-string test);
the unresolved-flight check compares the cleaned — NOT upper-cased — flight
number and is skipped entirely when the cleaned value is empty. -/
def validateFareRow (r : Row) (fm : List (String × String)) : List String :=
  let e1 :=
    (FARE_REQUIRED.filter fun f =>
      match rlookup r f with
      | none => true
      | some v => pyIsNA v).map
      fun f => "Отсутствует обязательное поле: " ++ f
  let fn := clean_text (rget r "flight_number" (.str ""))
  let e2 := if fn != "" && (alookup fm fn).isNone then ["Рейс не найден: " ++ fn] else []
  let e3 :=
    match pyFloat (rget r "price" (.int 0)) with
    | .ok f => if pyFloatLtZero f then ["Цена не может быть отрицательной"] else []
    | .error _ => ["Неверный формат цены"]
  let e4 :=
    match pyInt (rget r "available_seats" (.int 0)) with
    | .ok n => if n < 0 then ["Количество мест не может быть отрицательным"] else []
    | .error _ => ["Неверный формат количества мест"]
  e1 ++ e2 ++ e3 ++ e4

/-- The `AcceptedRecord` built by `_transform_valid_fare`. -/
structure FareOut where
  fare_id : String
  flight_id : String
  fare_class : String
  price : PyFloat
  fare_conditions : Value
  available_seats : Int
  deriving DecidableEq, Repr

/-- `FareDataTransformer._transform_valid_fare` (transformers.py lines
239-252): the `flight_id` lookup upper-cases the cleaned flight number and
raises an uncaught `KeyError` when that key is absent from the mapping. -/
def transformValidFare (uuid : String) (r : Row) (fm : List (String × String)) :
    Except PyErr FareOut :=
  match rindex r "flight_number" with
  | .error e => .error e
  | .ok fnv =>
    match alookup fm (supper (clean_text fnv)) with
    | none => .error (.keyError (supper (clean_text fnv)))
    | some fid =>
      match rindex r "fare_class" with
      | .error e => .error e
      | .ok fcv =>
        match valueUpper fcv with
        | .error e => .error e
        | .ok u =>
          match rindex r "price" with
          | .error e => .error e
          | .ok pv =>
            match pyFloat pv with
            | .error e => .error e
            | .ok price =>
              match rindex r "available_seats" with
              | .error e => .error e
              | .ok sv =>
                match pyInt sv with
                | .error e => .error e
                | .ok seats =>
                  .ok ⟨uuid, fid, (alookup FARE_CLASS_MAPPING u).getD u, price,
                    rget r "fare_conditions" .null, seats⟩

/-- The shared per-row loop of the three `transform_*_data` methods
(transformers.py lines 46-66, 129-146, 182-199): clean the row, run the
row check, route the row into the accepted or the rejected list; an
exception from the check or from the accepted-row transform propagates and
aborts the whole call, losing all partial output, exactly as in Python. -/
def partitionTransform {α : Type} (cleanR : Row → Row)
    (check : Row → Except PyErr (Bool × List String))
    (mk : Nat → Row → Except PyErr α) :
    List (Nat × Row) → Except PyErr (List α × List ErrRow)
  | [] => .ok ([], [])
  | (i, r) :: rest =>
    let c := cleanR r
    match check c with
    | .error e => .error e
    | .ok (okv, es) =>
      if okv then
        match mk i c with
        | .error e => .error e
        | .ok t =>
          match partitionTransform cleanR check mk rest with
          | .error e => .error e
          | .ok (v, er) => .ok (t :: v, er)
      else
        match partitionTransform cleanR check mk rest with
        | .error e => .error e
        | .ok (v, er) => .ok (v, { fields := c, errors := es, origIndex := i } :: er)

/-- `PassengerDataTransformer.transform_passenger_data` (transformers.py
lines 38-72); `gen` is the `generate_uuid` oracle, `today` the current date. -/
def transform_passenger_data (today : Nat) (gen : Nat → String)
    (rows : List (Nat × Row)) : Except PyErr (List PassengerOut × List ErrRow) :=
  partitionTransform cleanPassengerRow
    (fun c => .ok (validate_passenger_row today c))
    (fun i c => transformValidPassenger (gen i) c) rows

/-- `FlightDataTransformer.transform_flight_data` (transformers.py
lines 124-152). -/
def transform_flight_data (gen : Nat → String)
    (rows : List (Nat × Row)) : Except PyErr (List FlightOut × List ErrRow) :=
  partitionTransform cleanFlightRow
    validate_flight_row
    (fun i c => transformValidFlight (gen i) c) rows

/-- `FareDataTransformer.transform_fare_data` (transformers.py
lines 176-205): a row is accepted iff `_validate_fare_row` returns no error. -/
def transform_fare_data (gen : Nat → String) (fm : List (String × String))
    (rows : List (Nat × Row)) : Except PyErr (List FareOut × List ErrRow) :=
  partitionTransform cleanFareRow
    (fun c => let es := validateFareRow c fm; .ok (es.isEmpty, es))
    (fun i c => transformValidFare (gen i) c fm) rows

/-- `RunStats` of `PassengerDataLoader.load_passenger_data`. -/
structure PStats where
  total_processed : Nat
  passengers_created : Nat
  documents_created : Nat
  errors : List String
  deriving DecidableEq, Repr

/-- Python dict assignment `m[k] = v` on a string-keyed, insertion-ordered
dictionary: overwrite in place, or append a new key. -/
def dictSet {β : Type} : List (String × β) → String → β → List (String × β)
  | [], k, v => [(k, v)]
  | (k', v') :: t, k, v =>
    if k' = k then (k, v) :: t else (k', v') :: dictSet t k v

/-- `doc_type_mapping.get(row['document_type'])`: the dictionary read from the
store maps document-type codes to integer ids; a non-string cell never
matches a string key. -/
def docTypeLookup (m : List (String × Int)) : Value → Option Int
  | .str s => alookup m s
  | _ => none

/-- The per-record error string of the passenger loader's `except` clause:
`f"Ошибка при создании пассажира {row.get('first_name', '')}: {e}"`. -/
def passengerErrMsg (r : Row) (e : String) : String :=
  "Ошибка при создании пассажира " ++ pyStr (rget r "first_name" (.str "")) ++ ": " ++ e

/-- One iteration of `PassengerDataLoader.load_passenger_data` (loaders.py
lines 79-111). `createP` is the oracle for building `PassengerCreate` and
calling `crud.create_passenger` (returns the new passenger id or raises),
`createD` for `PassengerDocumentCreate`/`crud.create_passenger_document`.
Every exception of the body is caught and appended to `errors`; increments
that happened before the exception are kept, and an unresolved document-type
code records an error and skips only the document. -/
def stepPassengerRow (createP : Row → Except String String)
    (createD : String → Int → Row → Except String Unit)
    (dmap : List (String × Int)) (s : PStats) (r : Row) : PStats :=
  match createP r with
  | .error e => { s with errors := s.errors ++ [passengerErrMsg r e] }
  | .ok pid =>
    let s1 := { s with passengers_created := s.passengers_created + 1 }
    match rlookup r "document_type" with
    | none => { s1 with errors := s1.errors ++ [passengerErrMsg r "'document_type'"] }
    | some dv =>
      match docTypeLookup dmap dv with
      | none =>
        { s1 with errors := s1.errors ++ ["Неизвестный тип документа: " ++ pyStr dv] }
      | some dtid =>
        if dtid = 0 then
          { s1 with errors := s1.errors ++ ["Неизвестный тип документа: " ++ pyStr dv] }
        else
          match createD pid dtid r with
          | .error e => { s1 with errors := s1.errors ++ [passengerErrMsg r e] }
          | .ok _ => { s1 with documents_created := s1.documents_created + 1 }

/-- `PassengerDataLoader.load_passenger_data` (loaders.py lines 66-115). -/
def load_passenger_data (createP : Row → Except String String)
    (createD : String → Int → Row → Except String Unit)
    (dmap : List (String × Int)) (rows : List Row) : PStats :=
  rows.foldl (stepPassengerRow createP createD dmap)
    { total_processed := rows.length, passengers_created := 0,
      documents_created := 0, errors := [] }

/-- `RunStats` of `FlightDataLoader.load_flight_data`. -/
structure FStats where
  total_processed : Nat
  flights_created : Nat
  errors : List String
  deriving DecidableEq, Repr

/-- The per-record error string of the flight loader's `except` clause. -/
def flightErrMsg (r : Row) (e : String) : String :=
  "Ошибка при создании рейса " ++ pyStr (rget r "flight_number" (.str "")) ++ ": " ++ e

/-- One iteration of `FlightDataLoader.load_flight_data` (loaders.py lines
131-148): on success the flight number is recorded in the `EntityKeyMap`
(`flight_mapping`) and the counter bumped; any exception is caught and
appended. Valid flight rows always carry a string `flight_number` (the
transformer upper-cased it), so only string keys enter the map. -/
def stepFlightRow (createF : Row → Except String String)
    (st : FStats × List (String × String)) (r : Row) : FStats × List (String × String) :=
  let (s, fm) := st
  match createF r with
  | .error e => ({ s with errors := s.errors ++ [flightErrMsg r e] }, fm)
  | .ok fid =>
    match rlookup r "flight_number" with
    | none => ({ s with errors := s.errors ++ [flightErrMsg r "'flight_number'"] }, fm)
    | some fnv =>
      match fnv with
      | .str key => ({ s with flights_created := s.flights_created + 1 }, dictSet fm key fid)
      | _ => ({ s with flights_created := s.flights_created + 1 }, fm)

/-- `FlightDataLoader.load_flight_data` (loaders.py lines 121-152): returns
the stats and the incrementally built flight-number → id `EntityKeyMap`. -/
def load_flight_data (createF : Row → Except String String)
    (rows : List Row) : FStats × List (String × String) :=
  rows.foldl (stepFlightRow createF)
    ({ total_processed := rows.length, flights_created := 0, errors := [] }, [])

/-- `DataLoader._categorize_errors` category of one error message:
everything before the first colon, or the catch-all category. -/
def categoryOf (e : String) : String :=
  if e.data.contains ':' then String.mk (e.data.takeWhile fun c => c ≠ ':')
  else "Общие ошибки"

/-- One dictionary bump `categories[c] = categories.get(c, 0) + 1`;
the Python dict of counts is modelled as its counting function. -/
def bumpCat (cats : String → Nat) (c : String) : String → Nat :=
  fun k => if k = c then cats c + 1 else cats k

/-- `DataLoader._categorize_errors` (loaders.py lines 53-60): count every
error of every rejected row under its category. -/
def categorizeErrs (rows : List ErrRow) : String → Nat :=
  rows.foldl (fun cats er => er.errors.foldl (fun cs e => bumpCat cs (categoryOf e)) cats)
    (fun _ => 0)

/-- The rejection report: the flat file of failed rows (original fields plus
error lists) and the structured summary's error counts. -/
structure ErrReport where
  reportRows : List ErrRow
  total_errors : Nat
  error_categories : String → Nat

/-- `DataLoader.save_errors_report` (loaders.py lines 24-51) as the report
value it writes: nothing when the rejected set is empty. -/
def save_errors_report (rows : List ErrRow) : Option ErrReport :=
  if rows.isEmpty then none else some ⟨rows, rows.length, categorizeErrs rows⟩

/-- The orchestrator's report guard (orchestrator.py lines 62-63, 94-95,
105-106): `save_errors_report` runs only when the transformer's rejected
set is non-empty; the loader's per-record creation errors (`loadErrors`)
are never consulted for this decision. -/
def emitRejectionReport (rejected : List ErrRow) (_loadErrors : List String) :
    Option ErrReport :=
  if rejected.isEmpty then none else save_errors_report rejected

/-- One entry of `ETLOrchestrator.stats`: either the merged feed statistics
or the `{'error': str(e)}` record written by a feed's `except` clause.
Only the three counters read back by `_generate_summary` are modelled. -/
inductive FeedEntry where
  | stats (total_processed valid_records error_records : Nat)
  | failed (msg : String)
  deriving DecidableEq, Repr

/-- The aggregate of `ETLOrchestrator._generate_summary` (orchestrator.py
lines 192-210). `success_rate` is modelled as the exact rational; Python's
float arithmetic and 2-digit rounding are not modelled (no claim depends
on the numeric value). -/
structure RunSummary where
  total_processed : Nat
  total_valid : Nat
  total_errors : Nat
  success_rate : Rat
  deriving DecidableEq, Repr

/-- `_generate_summary`: error entries have no counters, so `.get(..., 0)`
contributes zero for a failed feed. -/
def generateSummary (st : List (String × FeedEntry)) : RunSummary :=
  let tp : Nat := st.foldl (fun a p => a + match p.2 with | .stats t _ _ => t | .failed _ => 0) 0
  let tv : Nat := st.foldl (fun a p => a + match p.2 with | .stats _ v _ => v | .failed _ => 0) 0
  let te : Nat := st.foldl (fun a p => a + match p.2 with | .stats _ _ e => e | .failed _ => 0) 0
  let rate := if 0 < tp then ((tv : Rat) / (tp : Rat)) * 100 else 0
  ⟨tp, tv, te, rate⟩

/-- The final JSON report of `ETLOrchestrator._save_final_report`
(orchestrator.py lines 172-190): per-feed statistics plus the aggregate. -/
structure FinalReport where
  statistics : List (String × FeedEntry)
  summary : RunSummary
  deriving DecidableEq, Repr

/-- `ETLOrchestrator.process_passengers_file` (orchestrator.py lines 44-77):
the whole extract/transform/load body is the oracle `pOr`; any exception is
caught and recorded as the feed's `{'error': ...}` stats entry, and the
method returns normally either way. -/
def process_passengers_file (pOr : String → Except String FeedEntry)
    (st : List (String × FeedEntry)) (fp : String) : List (String × FeedEntry) :=
  match pOr fp with
  | .ok e => dictSet st "passengers" e
  | .error m => dictSet st "passengers" (.failed m)

/-- `ETLOrchestrator.process_flights_file` (orchestrator.py lines 79-128):
on success the body records both the flights and the fares entries; on any
exception both entries become `{'error': ...}`. -/
def process_flights_file (fOr : String → Except String (FeedEntry × FeedEntry))
    (st : List (String × FeedEntry)) (fp : String) : List (String × FeedEntry) :=
  match fOr fp with
  | .ok (ef, efa) => dictSet (dictSet st "flights" ef) "fares" efa
  | .error m => dictSet (dictSet st "flights" (.failed m)) "fares" (.failed m)

/-- Python substring test `needle in hay` on character lists. -/
def containsSub (needle : List Char) : List Char → Bool
  | [] => needle.isEmpty
  | c :: t => needle.isPrefixOf (c :: t) || containsSub needle t

/-- Python `needle in hay` for strings. -/
def strContains (hay needle : String) : Bool :=
  containsSub needle.data hay.data

/-- The per-file dispatch of `run_etl_pipeline` (orchestrator.py lines
143-151): filename keyword classification; unknown names are skipped. -/
def classifyStep (pOr : String → Except String FeedEntry)
    (fOr : String → Except String (FeedEntry × FeedEntry))
    (st : List (String × FeedEntry)) (fp : String) : List (String × FeedEntry) :=
  if strContains (slower fp) "passenger" then process_passengers_file pOr st fp
  else if strContains (slower fp) "flight" then process_flights_file fOr st fp
  else st

/-- `ETLOrchestrator.run_etl_pipeline` (orchestrator.py lines 130-159):
with an empty file list the method returns early — before
`_save_final_report` — so no final report is produced; otherwise every file
is processed in order and the final report is always written at the end.
The dashboard rendering is external and out of scope. -/
def run_etl_pipeline (pOr : String → Except String FeedEntry)
    (fOr : String → Except String (FeedEntry × FeedEntry))
    (files : List String) : List (String × FeedEntry) × Option FinalReport :=
  if files.isEmpty then ([], none)
  else
    let st := files.foldl (classifyStep pOr fOr) []
    (st, some ⟨st, generateSummary st⟩)

/-- A fare row whose `flight_number` is whitespace only: present, not `isna`,
but cleaning to the empty string. -/
def wsFareRow : Row :=
  [("flight_number", .str "   "), ("fare_class", .str "Y"),
   ("price", .int 100), ("available_seats", .int 5)]

/-- A well-formed fare row referencing flight `AB123`. -/
def okFareRow : Row :=
  [("flight_number", .str "AB123"), ("fare_class", .str "ECONOMY"),
   ("price", .int 120), ("available_seats", .int 3)]

/-- A flight `EntityKeyMap` from the completed flight stage: the transformer
upper-cases flight numbers, so keys are upper-case. -/
def fmAB : List (String × String) := [("AB123", "F1")]

/-- A fixed `generate_uuid` oracle for concrete evaluations. -/
def genU : Nat → String := fun _ => "u"

/-- A flight row whose `total_seats` column is entirely absent. -/
def noSeatsFlightRow : Row :=
  [("flight_number", .str "SU100"), ("departure_airport_code", .str "LED"),
   ("arrival_airport_code", .str "JFK"),
   ("scheduled_departure", .str "2024-01-01 10:00:00"),
   ("scheduled_arrival", .str "2024-01-01 12:00:00")]

/-- A flight row with all six required columns present but `total_seats` NaN. -/
def nanSeatsFlightRow : Row :=
  [("flight_number", .str "SU100"), ("departure_airport_code", .str "LED"),
   ("arrival_airport_code", .str "JFK"),
   ("scheduled_departure", .str "2024-01-01 10:00:00"),
   ("scheduled_arrival", .str "2024-01-01 12:00:00"),
   ("total_seats", Value.nan)]

/-- A fully valid flight row except that arrival precedes departure. -/
def backwardsFlightRow : Row :=
  [("flight_number", .str "SU100"), ("departure_airport_code", .str "LED"),
   ("arrival_airport_code", .str "JFK"),
   ("scheduled_departure", .str "2024-01-01 10:00:00"),
   ("scheduled_arrival", .str "2024-01-01 09:00:00"),
   ("total_seats", Value.int 150)]

deriving instance DecidableEq for Except

/-- A fare row referencing a flight number absent from the key map. -/
def zzFareRow : Row :=
  [("flight_number", .str "ZZ1"), ("fare_class", .str "Y"),
   ("price", .int 1), ("available_seats", .int 1)]

/-- A fare row referencing flight `ab123` in lower case: its cleaned,
upper-cased flight number equals the key `AB123` of the flight map. -/
def abFareRow : Row :=
  [("flight_number", .str "ab123"), ("fare_class", .str "ECONOMY"),
   ("price", .int 100), ("available_seats", .int 10)]

/-- A sample rejected fare row carrying one categorizable and one
uncategorizable error message. -/
def sampleErrRow : ErrRow :=
  { fields := [("flight_number", .str "XX999")],
    errors := ["Рейс не найден: XX999", "Цена не может быть отрицательной"],
    origIndex := 3 }

/-! The development's theorems follow; everything above is the embedding. -/

theorem dropWhile_head_not (p : Char → Bool) :
    ∀ (l : List Char) (x : Char) (t : List Char),
      List.dropWhile p l = x :: t → p x = false := by
  intro l
  induction l with
  | nil => intro x t h; simp [List.dropWhile] at h
  | cons a l ih =>
    intro x t h
    by_cases hp : p a = true
    · rw [List.dropWhile_cons, if_pos hp] at h
      exact ih x t h
    · rw [List.dropWhile_cons, if_neg hp] at h
      cases h
      exact Bool.eq_false_iff.mpr hp

theorem stripChars_idem (l : List Char) : stripChars (stripChars l) = stripChars l := by
  unfold stripChars
  have h1 : List.dropWhile isPySpace (List.rdropWhile isPySpace (List.dropWhile isPySpace l))
      = List.rdropWhile isPySpace (List.dropWhile isPySpace l) := by
    obtain ⟨t, ht⟩ := List.rdropWhile_prefix isPySpace (List.dropWhile isPySpace l)
    cases ha : List.rdropWhile isPySpace (List.dropWhile isPySpace l) with
    | nil => simp
    | cons x t' =>
      have hb : List.dropWhile isPySpace l = x :: (t' ++ t) := by
        rw [← ht, ha]
        simp
      have hx : isPySpace x = false := dropWhile_head_not isPySpace l x _ hb
      rw [List.dropWhile_cons, if_neg (by simp [hx])]
  rw [h1, List.rdropWhile_idempotent]

theorem stripString_idem (s : String) : stripString (stripString s) = stripString s := by
  unfold stripString
  exact congrArg String.mk (stripChars_idem s.data)

theorem stripString_empty : stripString "" = "" := rfl

theorem clean_text_idem (v : Value) : clean_text (.str (clean_text v)) = clean_text v := by
  unfold clean_text
  cases v <;> simp [pyIsNA, pyStr, stripString_idem, stripString_empty]

theorem cleanCols_idem (cols : List String) (r : Row) :
    cleanCols cols (cleanCols cols r) = cleanCols cols r := by
  unfold cleanCols
  rw [List.map_map]
  apply List.map_congr_left
  intro kv _
  simp only [Function.comp]
  by_cases h : kv.1 ∈ cols
  · simp [h, clean_text_idem]
  · simp [h]

/-- C9: text cleaning is idempotent — `clean_text (clean_text v) = clean_text v`
for every cell value — and therefore re-running the passenger row validation
on the already-cleaned fields of a row yields exactly the same decision and
error list as the original validation of the cleaned row. -/
theorem C9_cleaning_idempotent :
    (∀ v : Value, clean_text (.str (clean_text v)) = clean_text v)
    ∧ (∀ (today : Nat) (r : Row),
        validate_passenger_row today (cleanPassengerRow (cleanPassengerRow r)) =
          validate_passenger_row today (cleanPassengerRow r)) := by
  constructor
  · exact clean_text_idem
  · intro today r
    rw [cleanPassengerRow, cleanPassengerRow, cleanCols_idem]

/-- C10: a fare row whose flight number is whitespace only passes
`_validate_fare_row` with no error (the required check sees a non-null value
and the unresolved-flight check is skipped for the empty cleaned string), and
`transform_fare_data` on a file containing that row then raises an uncaught
`KeyError('')` from the `flight_mapping` lookup, aborting the whole fare
stage — the following well-formed row is lost instead of only the bad row
being rejected. -/
theorem C10_whitespace_flight_number_aborts_fare_stage :
    validateFareRow (cleanFareRow wsFareRow) fmAB = []
    ∧ transform_fare_data genU fmAB [(0, wsFareRow), (1, okFareRow)]
        = .error (.keyError "") := by
  constructor
  · rfl
  · rfl

/-- C2 counterexample: the claim says the email and phone format predicates
return true for a string that trims to empty, but `validate_email` and
`validate_phone` return false on the empty string (`pd.isna('')` is false and
the anchored regexes require at least one character), and a passenger row
whose cleaned email is the empty string accumulates the email format error. -/
theorem C2_counterexample_empty_string_fails_format :
    validate_email (.str "") = false ∧ validate_phone (.str "") = false := by
  constructor <;> rfl

/-- C2 amended: the email and phone predicates return true for null/NaN
(absent) values — those fields are optional — but the empty string fails
both, so a passenger row whose email or phone is present but empty after
text cleaning DOES accumulate the corresponding format error. -/
theorem C2_amended_empty_only_for_absent (v : Value) (today : Nat) (r : Row)
    (hv : pyIsNA v = true) :
    (validate_email v = true ∧ validate_phone v = true)
    ∧ validate_email (.str "") = false
    ∧ validate_phone (.str "") = false
    ∧ (rlookup r "email" = some (.str "") →
        "Неверный формат email" ∈ (validate_passenger_row today r).2)
    ∧ (rlookup r "phone_number" = some (.str "") →
        "Неверный формат номера телефона" ∈ (validate_passenger_row today r).2) := by
  refine ⟨⟨?_, ?_⟩, rfl, rfl, ?_, ?_⟩
  · unfold validate_email
    rw [hv]
    simp
  · unfold validate_phone
    rw [hv]
    simp
  · intro he
    unfold validate_passenger_row
    have hk : rhasKey r "email" = true := by
      unfold rhasKey
      rw [he]
      rfl
    have hg : rget r "email" .null = .str "" := by
      unfold rget
      rw [he]
      rfl
    simp only [hk, hg]
    simp [validate_email, pyIsNA, pyStr, emailMatch]
  · intro hp
    unfold validate_passenger_row
    have hk : rhasKey r "phone_number" = true := by
      unfold rhasKey
      rw [hp]
      rfl
    have hg : rget r "phone_number" .null = .str "" := by
      unfold rget
      rw [hp]
      rfl
    simp only [hk, hg]
    simp [validate_phone, pyIsNA, pyStr, phoneMatch]

theorem rhasKey_of_lookup {r : Row} {k : String} {v : Value} (h : rlookup r k = some v) :
    rhasKey r k = true := by
  unfold rhasKey
  rw [h]
  rfl

theorem rget_of_lookup {r : Row} {k : String} {v d : Value} (h : rlookup r k = some v) :
    rget r k d = v := by
  unfold rget
  rw [h]
  rfl

theorem isEmpty_false_of_mem {α : Type} {l : List α} {x : α} (h : x ∈ l) :
    l.isEmpty = false := by
  cases l with
  | nil => cases h
  | cons a t => rfl

theorem required_mem_of_isna {r : Row} {f : String} {fields : List String} (hf : f ∈ fields)
    {v : Value} (h : rlookup r f = some v) (hna : pyIsNA v = true) :
    f ∈ validate_required_fields r fields := by
  unfold validate_required_fields
  rw [List.mem_filter]
  refine ⟨hf, ?_⟩
  rw [h]
  simp [hna]

theorem flightOrderingErrs_ok_of_keys {r : Row} {dv av : Value}
    (h1 : rlookup r "scheduled_departure" = some dv)
    (h2 : rlookup r "scheduled_arrival" = some av) :
    ∃ e6, flightOrderingErrs r = .ok e6 := by
  simp only [flightOrderingErrs, rindex, h1, h2]
  cases strptime .ymdhms (pyStr dv) with
  | none => exact ⟨[], rfl⟩
  | some dep =>
    cases strptime .ymdhms (pyStr av) with
    | none => exact ⟨[], rfl⟩
    | some arr => exact ⟨_, rfl⟩

theorem ok_pair_isEmpty {E : List String} (h : E.isEmpty = false) :
    (Except.ok (E.isEmpty, E) : Except PyErr (Bool × List String)) = .ok (false, E) := by
  rw [h]

theorem flightSeatsErrs_ok_of_key {r : Row} {sv : Value}
    (h3 : rlookup r "total_seats" = some sv) :
    ∃ e7, flightSeatsErrs r = .ok e7 := by
  simp only [flightSeatsErrs, rindex, h3]
  cases pyInt sv with
  | ok n => exact ⟨_, rfl⟩
  | error e => exact ⟨_, rfl⟩

/-- C6 counterexample: the claim says flight row validation returns normally
even when the `total_seats` key is entirely absent, but on such a row the
seat-count `try` block evaluates `row['total_seats']` and the resulting
`KeyError` is not caught by `except (ValueError, TypeError)`: validation
raises instead of returning. -/
theorem C6_counterexample_absent_column_raises :
    validate_flight_row noSeatsFlightRow = .error (.keyError "total_seats") := by
  rfl

/-- C6 amended: when the `scheduled_departure`, `scheduled_arrival` and
`total_seats` columns are present (their values may be null/NaN or
malformed), flight row validation returns normally, and whenever required
values are missing the aggregated missing-fields message is in the
accumulated error list and the row is rejected; but a row lacking one of
those three keys makes validation raise an uncaught `KeyError`. -/
theorem C6_amended_no_raise_when_columns_present (r : Row) (dv av sv : Value)
    (h1 : rlookup r "scheduled_departure" = some dv)
    (h2 : rlookup r "scheduled_arrival" = some av)
    (h3 : rlookup r "total_seats" = some sv) :
    ∃ b errs, validate_flight_row r = .ok (b, errs)
      ∧ (validate_required_fields r FLIGHT_REQUIRED ≠ [] →
          missingMsg (validate_required_fields r FLIGHT_REQUIRED) ∈ errs ∧ b = false) := by
  obtain ⟨e6, he6⟩ := flightOrderingErrs_ok_of_keys h1 h2
  obtain ⟨e7, he7⟩ := flightSeatsErrs_ok_of_key h3
  simp only [validate_flight_row, he6, he7]
  refine ⟨_, _, rfl, ?_⟩
  intro hmf
  constructor
  · simp [hmf]
  · simp [hmf]

/-- C6 amended witness: the amended theorem applied to a row whose
`total_seats` is present but NaN; the missing-fields message is reported and
the row is rejected, with no exception. -/
theorem C6_amended_witness :
    ∃ b errs, validate_flight_row nanSeatsFlightRow = .ok (b, errs)
      ∧ (validate_required_fields nanSeatsFlightRow FLIGHT_REQUIRED ≠ [] →
          missingMsg (validate_required_fields nanSeatsFlightRow FLIGHT_REQUIRED) ∈ errs
          ∧ b = false) :=
  C6_amended_no_raise_when_columns_present nanSeatsFlightRow
    (.str "2024-01-01 10:00:00") (.str "2024-01-01 12:00:00") .nan rfl rfl rfl

/-- C7: for a flight row whose three `try`-accessed columns are present, if
both timestamps parse under `%Y-%m-%d %H:%M:%S` and arrival ≤ departure the
ordering error is flagged and the row is rejected regardless of everything
else; if either timestamp fails to parse, the ordering check contributes no
error at all, yet the row is still rejected (by the missing-field or the
format error that the failing timestamp necessarily produces). -/
theorem C7_arrival_after_departure (r : Row) (dv av sv : Value)
    (h1 : rlookup r "scheduled_departure" = some dv)
    (h2 : rlookup r "scheduled_arrival" = some av)
    (h3 : rlookup r "total_seats" = some sv) :
    (∀ dep arr, strptime .ymdhms (pyStr dv) = some dep →
        strptime .ymdhms (pyStr av) = some arr → arr ≤ dep →
        flightOrderingErrs r = .ok ["Время прилета должно быть после времени вылета"]
        ∧ ∃ errs, validate_flight_row r = .ok (false, errs)
            ∧ "Время прилета должно быть после времени вылета" ∈ errs)
    ∧ ((strptime .ymdhms (pyStr dv) = none ∨ strptime .ymdhms (pyStr av) = none) →
        flightOrderingErrs r = .ok []
        ∧ ∃ errs, validate_flight_row r = .ok (false, errs)) := by
  obtain ⟨e7, he7⟩ := flightSeatsErrs_ok_of_key h3
  constructor
  · intro dep arr hdep harr hle
    have he6 : flightOrderingErrs r
        = .ok ["Время прилета должно быть после времени вылета"] := by
      simp only [flightOrderingErrs, rindex, h1, h2, hdep, harr]
      rw [if_pos hle]
    refine ⟨he6, ?_⟩
    simp only [validate_flight_row, he6, he7]
    refine ⟨_, ok_pair_isEmpty ?_, ?_⟩
    · simp
    · simp
  · intro hnone
    have he6 : flightOrderingErrs r = .ok [] := by
      cases hnone with
      | inl h => simp only [flightOrderingErrs, rindex, h1, h]
      | inr h =>
        simp only [flightOrderingErrs, rindex, h1, h2, h]
        cases strptime .ymdhms (pyStr dv) <;> rfl
    refine ⟨he6, ?_⟩
    have key : validate_required_fields r FLIGHT_REQUIRED ≠ []
        ∨ validate_date (rget r "scheduled_departure" .null) .ymdhms = false
        ∨ validate_date (rget r "scheduled_arrival" .null) .ymdhms = false := by
      cases hnone with
      | inl h =>
        by_cases hna : pyIsNA dv = true
        · exact Or.inl (List.ne_nil_of_mem
            (required_mem_of_isna (by decide) h1 hna))
        · refine Or.inr (Or.inl ?_)
          unfold validate_date
          rw [rget_of_lookup h1, if_neg (by simp [hna]), h]
          rfl
      | inr h =>
        by_cases hna : pyIsNA av = true
        · exact Or.inl (List.ne_nil_of_mem
            (required_mem_of_isna (by decide) h2 hna))
        · refine Or.inr (Or.inr ?_)
          unfold validate_date
          rw [rget_of_lookup h2, if_neg (by simp [hna]), h]
          rfl
    simp only [validate_flight_row, he6, he7]
    rcases key with hk | hk | hk
    · exact ⟨_, ok_pair_isEmpty (by simp [hk])⟩
    · exact ⟨_, ok_pair_isEmpty (by simp [hk])⟩
    · exact ⟨_, ok_pair_isEmpty (by simp [hk])⟩

/-- C7 witness: part one of the theorem at a concrete row whose arrival
precedes its departure — the ordering error is produced and the row
rejected. -/
theorem C7_witness :
    flightOrderingErrs backwardsFlightRow
      = .ok ["Время прилета должно быть после времени вылета"]
    ∧ ∃ errs, validate_flight_row backwardsFlightRow = .ok (false, errs)
        ∧ "Время прилета должно быть после времени вылета" ∈ errs :=
  (C7_arrival_after_departure backwardsFlightRow
      (.str "2024-01-01 10:00:00") (.str "2024-01-01 09:00:00") (.int 150)
      rfl rfl rfl).1 72750304800 72750301200 rfl rfl (by decide)

theorem foldl_bump_count_errs (c : String) :
    ∀ (es : List String) (init : String → Nat),
      (es.foldl (fun cs e => bumpCat cs (categoryOf e)) init) c
        = init c + es.countP (fun e => categoryOf e == c) := by
  intro es
  induction es with
  | nil => intro init; simp
  | cons e es ih =>
    intro init
    rw [List.foldl_cons, ih, List.countP_cons]
    by_cases h : categoryOf e = c
    · subst h
      simp [bumpCat]
      omega
    · have hb : (categoryOf e == c) = false := by simp [h]
      simp [bumpCat, h, hb]
      intro hc
      exact absurd hc.symm h

theorem categorize_count (rows : List ErrRow) (c : String) :
    categorizeErrs rows c
      = ((rows.map ErrRow.errors).flatten.countP (fun e => categoryOf e == c)) := by
  unfold categorizeErrs
  have gen : ∀ (rs : List ErrRow) (init : String → Nat),
      (rs.foldl (fun cats er => er.errors.foldl
          (fun cs e => bumpCat cs (categoryOf e)) cats) init) c
        = init c + ((rs.map ErrRow.errors).flatten.countP (fun e => categoryOf e == c)) := by
    intro rs
    induction rs with
    | nil => intro init; simp
    | cons er rest ih =>
      intro init
      rw [List.foldl_cons, ih, foldl_bump_count_errs]
      simp [List.countP_append]
      omega
  rw [gen]
  exact Nat.zero_add _

/-- C3 counterexample: the claim says a rejection report is emitted when at
least one per-record creation error was appended to the feed's RunStats even
with no RejectedRecord, but the orchestrator's guard looks only at the
transformer's rejected set: with no rejected rows and one creation error, no
report is written. -/
theorem C3_counterexample_creation_errors_without_report :
    emitRejectionReport [] ["Ошибка при создании пассажира Анна: дубликат"] = none := by
  rfl

/-- C3 amended: a rejection report is emitted if and only if at least one
RejectedRecord exists — loader creation errors never trigger it — and the
emitted report is the flat list of the failed rows' fields plus error lists
together with a summary whose count for each category equals the number of
error messages whose text before the first colon is that category (messages
without a colon count under the general category). -/
theorem C3_amended_report_iff_rejected (rejected : List ErrRow) (loadErrors : List String) :
    (emitRejectionReport rejected loadErrors = none ↔ rejected = [])
    ∧ (∀ rep, emitRejectionReport rejected loadErrors = some rep →
        rep.reportRows = rejected ∧ rep.total_errors = rejected.length
        ∧ ∀ c, rep.error_categories c
            = (rejected.map ErrRow.errors).flatten.countP (fun e => categoryOf e == c)) := by
  constructor
  · cases rejected <;> simp [emitRejectionReport, save_errors_report]
  · intro rep hrep
    cases rejected with
    | nil => simp [emitRejectionReport] at hrep
    | cons er rest =>
      simp only [emitRejectionReport, save_errors_report, List.isEmpty_cons,
        Bool.false_eq_true, if_false] at hrep
      injection hrep with h
      subst h
      exact ⟨rfl, rfl, fun c => categorize_count (er :: rest) c⟩

/-- C3 witness: the amended theorem at a one-row rejected set — the report
exists and counts the colon-headed message under its category. -/
theorem C3_amended_witness :
    ∃ rep, emitRejectionReport [sampleErrRow] [] = some rep
      ∧ rep.error_categories "Рейс не найден" = 1 := by
  refine ⟨⟨[sampleErrRow], 1, categorizeErrs [sampleErrRow]⟩, rfl, ?_⟩
  have h := (C3_amended_report_iff_rejected [sampleErrRow] []).2
    ⟨[sampleErrRow], 1, categorizeErrs [sampleErrRow]⟩ rfl
  rw [h.2.2 "Рейс не найден"]
  rfl

/-- C4 counterexample: the claim says every run (including one over the
empty file list) ends by writing the final report, but with no input files
`run_etl_pipeline` returns before `_save_final_report`: no report exists. -/
theorem C4_counterexample_empty_run_has_no_report :
    (run_etl_pipeline (fun _ => .error "boom") (fun _ => .error "boom") []).2 = none := by
  rfl

/-- C4 amended: for every NON-empty file list and all per-file outcomes the
pipeline completes and produces the final report over the accumulated feed
statistics; an uncaught failure in one file is recorded as that feed's
`{'error': ...}` entry and the fold simply continues with the remaining
files; the empty file list alone returns early with no report. -/
theorem C4_amended_report_for_nonempty_runs (pOr : String → Except String FeedEntry)
    (fOr : String → Except String (FeedEntry × FeedEntry)) :
    (∀ files, files ≠ [] →
        (run_etl_pipeline pOr fOr files).2
          = some ⟨files.foldl (classifyStep pOr fOr) [],
              generateSummary (files.foldl (classifyStep pOr fOr) [])⟩)
    ∧ (∀ st fp m, strContains (slower fp) "passenger" = true → pOr fp = .error m →
        classifyStep pOr fOr st fp = dictSet st "passengers" (.failed m))
    ∧ (∀ f fs, (run_etl_pipeline pOr fOr (f :: fs)).1
        = fs.foldl (classifyStep pOr fOr) (classifyStep pOr fOr [] f))
    ∧ (run_etl_pipeline pOr fOr []).2 = none := by
  refine ⟨?_, ?_, ?_, rfl⟩
  · intro files hne
    cases files with
    | nil => exact absurd rfl hne
    | cons f fs => rfl
  · intro st fp m hc he
    unfold classifyStep process_passengers_file
    rw [if_pos hc, he]
  · intro f fs
    rfl

/-- C4 witness: the amended theorem on a single passenger file whose
processing fails — the run still ends with a final report whose statistics
carry the recorded error entry. -/
theorem C4_amended_witness :
    (run_etl_pipeline (fun _ => Except.error "X") (fun _ => Except.error "Y")
        ["passengers.csv"]).2
      = some ⟨[("passengers", .failed "X")],
          generateSummary [("passengers", .failed "X")]⟩ :=
  ((C4_amended_report_for_nonempty_runs (fun _ => Except.error "X")
      (fun _ => Except.error "Y")).1 ["passengers.csv"] (by simp)).trans rfl

theorem stepPassengerRow_split (cP : Row → Except String String)
    (cD : String → Int → Row → Except String Unit)
    (dmap : List (String × Int)) (s : PStats) (r : Row) :
    stepPassengerRow cP cD dmap s r
      = { total_processed := s.total_processed,
          passengers_created := s.passengers_created
            + (stepPassengerRow cP cD dmap ⟨0, 0, 0, []⟩ r).passengers_created,
          documents_created := s.documents_created
            + (stepPassengerRow cP cD dmap ⟨0, 0, 0, []⟩ r).documents_created,
          errors := s.errors
            ++ (stepPassengerRow cP cD dmap ⟨0, 0, 0, []⟩ r).errors } := by
  unfold stepPassengerRow
  cases hp : cP r with
  | error e => simp [hp]
  | ok pid =>
    cases hd : rlookup r "document_type" with
    | none => simp [hp, hd]
    | some dv =>
      cases hu : docTypeLookup dmap dv with
      | none => simp [hp, hd, hu]
      | some dtid =>
        by_cases h0 : dtid = 0
        · simp [hp, hd, hu, h0]
        · cases hc : cD pid dtid r <;> simp [hp, hd, hu, h0, hc]

theorem foldl_stepPassenger (cP : Row → Except String String)
    (cD : String → Int → Row → Except String Unit)
    (dmap : List (String × Int)) (rows : List Row) :
    ∀ s : PStats, rows.foldl (stepPassengerRow cP cD dmap) s
      = { total_processed := s.total_processed,
          passengers_created := s.passengers_created
            + (rows.foldl (stepPassengerRow cP cD dmap) ⟨0, 0, 0, []⟩).passengers_created,
          documents_created := s.documents_created
            + (rows.foldl (stepPassengerRow cP cD dmap) ⟨0, 0, 0, []⟩).documents_created,
          errors := s.errors
            ++ (rows.foldl (stepPassengerRow cP cD dmap) ⟨0, 0, 0, []⟩).errors } := by
  induction rows with
  | nil => intro s; simp
  | cons r rest ih =>
    intro s
    rw [List.foldl_cons, List.foldl_cons, ih (stepPassengerRow cP cD dmap s r),
      ih (stepPassengerRow cP cD dmap ⟨0, 0, 0, []⟩ r),
      stepPassengerRow_split cP cD dmap s r]
    simp [Nat.add_assoc, List.append_assoc]

/-- C5: loading never aborts on a bad record — the statistics of a batch are
exactly the concatenation of the statistics of its parts, whatever the
per-record create outcomes, so a failing record only contributes its caught
error string while the rest of the batch is still processed; moreover a
passenger whose document-type code does not resolve in the store's table is
itself created and counted while only its document is skipped, with the
error recorded; and the flight loader likewise catches a failing create,
appends its message, and folds on over the remaining records. -/
theorem C5_loader_never_aborts (cP : Row → Except String String)
    (cD : String → Int → Row → Except String Unit)
    (dmap : List (String × Int)) (cF : Row → Except String String) :
    (∀ rows1 rows2 : List Row,
        let a := load_passenger_data cP cD dmap rows1
        let b := load_passenger_data cP cD dmap rows2
        let ab := load_passenger_data cP cD dmap (rows1 ++ rows2)
        ab.total_processed = rows1.length + rows2.length
        ∧ ab.passengers_created = a.passengers_created + b.passengers_created
        ∧ ab.documents_created = a.documents_created + b.documents_created
        ∧ ab.errors = a.errors ++ b.errors)
    ∧ (∀ (r : Row) (pid : String) (dv : Value), cP r = .ok pid →
        rlookup r "document_type" = some dv →
        (docTypeLookup dmap dv = none ∨ docTypeLookup dmap dv = some 0) →
        load_passenger_data cP cD dmap [r]
          = { total_processed := 1, passengers_created := 1, documents_created := 0,
              errors := ["Неизвестный тип документа: " ++ pyStr dv] })
    ∧ (∀ (r : Row) (rest : List Row) (e : String), cF r = .error e →
        load_flight_data cF (r :: rest)
          = rest.foldl (stepFlightRow cF)
              ({ total_processed := rest.length + 1, flights_created := 0,
                 errors := [flightErrMsg r e] }, [])) := by
  refine ⟨?_, ?_, ?_⟩
  · intro rows1 rows2
    have hz := foldl_stepPassenger cP cD dmap
    simp only [load_passenger_data, List.foldl_append, List.length_append]
    refine ⟨?_, ?_, ?_, ?_⟩ <;>
      · rw [hz rows2 (List.foldl (stepPassengerRow cP cD dmap) (⟨rows1.length + rows2.length, 0, 0, []⟩ : PStats) rows1),
          hz rows1 (⟨rows1.length + rows2.length, 0, 0, []⟩ : PStats)]
        try simp [hz rows1 (⟨rows1.length, 0, 0, []⟩ : PStats),
          hz rows2 (⟨rows2.length, 0, 0, []⟩ : PStats)]
  · intro r pid dv hp hd hu
    unfold load_passenger_data
    rw [List.foldl_cons, List.foldl_nil]
    unfold stepPassengerRow
    rcases hu with hu | hu <;> simp [hp, hd, hu]
  · intro r rest e he
    unfold load_flight_data
    rw [List.foldl_cons]
    have hstep : stepFlightRow cF
        ({ total_processed := (r :: rest).length, flights_created := 0, errors := [] }, []) r
        = ({ total_processed := rest.length + 1, flights_created := 0,
             errors := [flightErrMsg r e] }, []) := by
      unfold stepFlightRow
      rw [he]
      simp [List.length_cons]
    rw [hstep]

/-- C5 witness: the theorem at concrete one- and two-record batches: a
failing first create is recorded and the second record is still processed,
and an unknown document-type code keeps the passenger but not the document. -/
theorem C5_loader_never_aborts_witness :
    (load_passenger_data (fun r => if r = [] then .error "dup" else .ok "p1")
        (fun _ _ _ => .ok ()) [("PASSPORT_RF", 7)]
        ([] :: [[("first_name", Value.str "Ivan"), ("document_type", Value.str "PASSPORT_RF")]])).passengers_created
      = (load_passenger_data (fun r => if r = [] then .error "dup" else .ok "p1")
          (fun _ _ _ => .ok ()) [("PASSPORT_RF", 7)] [[]]).passengers_created
        + (load_passenger_data (fun r => if r = [] then .error "dup" else .ok "p1")
            (fun _ _ _ => .ok ()) [("PASSPORT_RF", 7)]
            [[("first_name", Value.str "Ivan"), ("document_type", Value.str "PASSPORT_RF")]]).passengers_created
    ∧ load_passenger_data (fun _ => .ok "p1") (fun _ _ _ => .ok ()) [("PASSPORT_RF", 7)]
        [[("document_type", Value.str "SCROLL")]]
      = { total_processed := 1, passengers_created := 1, documents_created := 0,
          errors := ["Неизвестный тип документа: SCROLL"] } := by
  constructor
  · exact ((C5_loader_never_aborts (fun r => if r = [] then .error "dup" else .ok "p1")
      (fun _ _ _ => .ok ()) [("PASSPORT_RF", 7)] (fun _ => .ok "f")).1
      [[]] [[("first_name", Value.str "Ivan"), ("document_type", Value.str "PASSPORT_RF")]]).2.1
  · exact (C5_loader_never_aborts (fun _ => .ok "p1") (fun _ _ _ => .ok ())
      [("PASSPORT_RF", 7)] (fun _ => .ok "f")).2.1
      [("document_type", Value.str "SCROLL")] "p1" (Value.str "SCROLL")
      rfl rfl (Or.inl rfl)

theorem partitionTransform_spec {α : Type} (cleanR : Row → Row)
    (check : Row → Except PyErr (Bool × List String))
    (mk : Nat → Row → Except PyErr α)
    (acc : Nat × Row → Bool) (errsOf : Nat × Row → List String)
    (hacc : ∀ (p : Nat × Row) (b : Bool) (es : List String),
      check (cleanR p.2) = .ok (b, es) → acc p = b ∧ errsOf p = es) :
    ∀ (rows : List (Nat × Row)) (v : List α) (er : List ErrRow),
      partitionTransform cleanR check mk rows = .ok (v, er) →
      v.map Except.ok
          = (rows.filter acc).map (fun p => mk p.1 (cleanR p.2))
        ∧ er = (rows.filter fun p => !acc p).map
            (fun p => { fields := cleanR p.2, errors := errsOf p, origIndex := p.1 })
        ∧ v.length + er.length = rows.length := by
  intro rows
  induction rows with
  | nil =>
    intro v er h
    simp only [partitionTransform] at h
    injection h with h
    injection h with h1 h2
    subst h1
    subst h2
    simp
  | cons p rest ih =>
    intro v er h
    obtain ⟨i, r⟩ := p
    simp only [partitionTransform] at h
    cases hc : check (cleanR r) with
    | error e => rw [hc] at h; exact absurd h (by simp)
    | ok bes =>
      obtain ⟨b, es⟩ := bes
      rw [hc] at h
      obtain ⟨hb, hes⟩ := hacc (i, r) b es hc
      cases b with
      | true =>
        simp only [if_true] at h
        cases hm : mk i (cleanR r) with
        | error e => rw [hm] at h; exact absurd h (by simp)
        | ok t =>
          rw [hm] at h
          cases hrec : partitionTransform cleanR check mk rest with
          | error e => rw [hrec] at h; exact absurd h (by simp)
          | ok ver =>
            obtain ⟨v', er'⟩ := ver
            rw [hrec] at h
            injection h with h
            injection h with h1 h2
            subst h1
            subst h2
            obtain ⟨ih1, ih2, ih3⟩ := ih v' er' hrec
            refine ⟨?_, ?_, ?_⟩
            · rw [List.map_cons, ih1, List.filter_cons]
              simp [hb, hm]
            · rw [ih2, List.filter_cons]
              simp [hb]
            · simp [ih3]
              omega
      | false =>
        simp only [Bool.false_eq_true, if_false] at h
        cases hrec : partitionTransform cleanR check mk rest with
        | error e => rw [hrec] at h; exact absurd h (by simp)
        | ok ver =>
          obtain ⟨v', er'⟩ := ver
          rw [hrec] at h
          injection h with h
          injection h with h1 h2
          subst h1
          subst h2
          obtain ⟨ih1, ih2, ih3⟩ := ih v' er' hrec
          refine ⟨?_, ?_, ?_⟩
          · rw [ih1, List.filter_cons]
            simp [hb]
          · rw [List.filter_cons]
            simp only [hb]
            simp [ih2, hes]
          · simp [ih3]
            omega

/-- C8: for each of the three domain transformers, whenever the call returns
(no exception escaped), the accepted and rejected outputs are exactly the
image of the acceptance-filtered and the rejection-filtered input rows, in
source order — an exhaustive, disjoint, order-preserving partition — the
rejected rows carry their original index, and the accepted-side plus
rejected-side original indices are a permutation of the input indices. -/
theorem C8_transformer_output_partitions (today : Nat) (gen : Nat → String)
    (fm : List (String × String)) :
    (∀ rows v er, transform_passenger_data today gen rows = .ok (v, er) →
        v.map Except.ok
            = (rows.filter fun p => (validate_passenger_row today (cleanPassengerRow p.2)).1).map
                (fun p => transformValidPassenger (gen p.1) (cleanPassengerRow p.2))
          ∧ er = (rows.filter fun p => !(validate_passenger_row today (cleanPassengerRow p.2)).1).map
              (fun p => (⟨cleanPassengerRow p.2,
                (validate_passenger_row today (cleanPassengerRow p.2)).2, p.1⟩ : ErrRow))
          ∧ v.length + er.length = rows.length
          ∧ ((rows.filter fun p => (validate_passenger_row today (cleanPassengerRow p.2)).1).map Prod.fst
              ++ (rows.filter fun p => !(validate_passenger_row today (cleanPassengerRow p.2)).1).map Prod.fst).Perm
              (rows.map Prod.fst))
    ∧ (∀ rows v er, transform_flight_data gen rows = .ok (v, er) →
        v.map Except.ok
            = (rows.filter fun p =>
                match validate_flight_row (cleanFlightRow p.2) with
                | .ok (b, _) => b
                | .error _ => false).map
                (fun p => transformValidFlight (gen p.1) (cleanFlightRow p.2))
          ∧ er = (rows.filter fun p => !(match validate_flight_row (cleanFlightRow p.2) with
                | .ok (b, _) => b
                | .error _ => false)).map
              (fun p => (⟨cleanFlightRow p.2,
                (match validate_flight_row (cleanFlightRow p.2) with
                  | .ok (_, es) => es
                  | .error _ => []), p.1⟩ : ErrRow))
          ∧ v.length + er.length = rows.length)
    ∧ (∀ rows v er, transform_fare_data gen fm rows = .ok (v, er) →
        v.map Except.ok
            = (rows.filter fun p => (validateFareRow (cleanFareRow p.2) fm).isEmpty).map
                (fun p => transformValidFare (gen p.1) (cleanFareRow p.2) fm)
          ∧ er = (rows.filter fun p => !(validateFareRow (cleanFareRow p.2) fm).isEmpty).map
              (fun p => (⟨cleanFareRow p.2, validateFareRow (cleanFareRow p.2) fm, p.1⟩ : ErrRow))
          ∧ v.length + er.length = rows.length) := by
  refine ⟨?_, ?_, ?_⟩
  · intro rows v er h
    have hs := partitionTransform_spec cleanPassengerRow
      (fun c => .ok (validate_passenger_row today c))
      (fun i c => transformValidPassenger (gen i) c)
      (fun p => (validate_passenger_row today (cleanPassengerRow p.2)).1)
      (fun p => (validate_passenger_row today (cleanPassengerRow p.2)).2)
      (by
        intro p b es hc
        injection hc with hc
        exact ⟨congrArg Prod.fst hc, congrArg Prod.snd hc⟩)
      rows v er h
    refine ⟨hs.1, hs.2.1, hs.2.2, ?_⟩
    have hperm := (List.filter_append_perm
      (fun p => (validate_passenger_row today (cleanPassengerRow p.2)).1) rows).map Prod.fst
    simpa [List.map_append] using hperm
  · intro rows v er h
    exact partitionTransform_spec cleanFlightRow validate_flight_row
      (fun i c => transformValidFlight (gen i) c)
      (fun p => match validate_flight_row (cleanFlightRow p.2) with
        | .ok (b, _) => b
        | .error _ => false)
      (fun p => match validate_flight_row (cleanFlightRow p.2) with
        | .ok (_, es) => es
        | .error _ => [])
      (by
        intro p b es hc
        constructor <;> simp [hc])
      rows v er h
  · intro rows v er h
    exact partitionTransform_spec cleanFareRow
      (fun c => let es := validateFareRow c fm; .ok (es.isEmpty, es))
      (fun i c => transformValidFare (gen i) c fm)
      (fun p => (validateFareRow (cleanFareRow p.2) fm).isEmpty)
      (fun p => validateFareRow (cleanFareRow p.2) fm)
      (by
        intro p b es hc
        simp only [Except.ok.injEq, Prod.mk.injEq] at hc
        exact ⟨hc.1, hc.2⟩)
      rows v er h

/-- C8 witness: the fare transformer on a two-row input — one resolving row
accepted, one unresolved row rejected with its original index — satisfies
the partition characterization. -/
theorem C8_transformer_output_partitions_witness :
    ∃ v er, transform_fare_data genU fmAB [(0, okFareRow), (7, zzFareRow)] = .ok (v, er)
      ∧ v.length + er.length = 2 := by
  obtain ⟨v, er, hve⟩ : ∃ v er,
      transform_fare_data genU fmAB [(0, okFareRow), (7, zzFareRow)] = .ok (v, er) :=
    ⟨_, _, rfl⟩
  refine ⟨v, er, hve, ?_⟩
  exact ((C8_transformer_output_partitions 0 genU fmAB).2.2
    [(0, okFareRow), (7, zzFareRow)] v er hve).2.2

theorem alookup_mem {β : Type} : ∀ {m : List (String × β)} {k : String} {v : β},
    alookup m k = some v → (k, v) ∈ m := by
  intro m
  induction m with
  | nil => intro k v h; simp [alookup] at h
  | cons p t ih =>
    intro k v h
    obtain ⟨k', v'⟩ := p
    simp only [alookup] at h
    by_cases hk : k' = k
    · rw [if_pos hk] at h
      injection h with h
      subst hk
      subst h
      exact List.mem_cons_self _ _
    · rw [if_neg hk] at h
      exact List.mem_cons_of_mem _ (ih h)

theorem rlookup_cleanCols (cols : List String) (r : Row) (k : String) :
    rlookup (cleanCols cols r) k
      = (rlookup r k).map (fun v => if cols.contains k then .str (clean_text v) else v) := by
  induction r with
  | nil => rfl
  | cons kv t ih =>
    obtain ⟨k', v'⟩ := kv
    simp only [cleanCols, List.map_cons] at *
    by_cases hco : cols.contains k' = true
    · have hm : k' ∈ cols := by simpa using hco
      simp only [hco, if_true]
      by_cases hk : k' = k
      · subst hk
        simp [rlookup, hco, hm]
      · simp only [rlookup, hk, if_false]
        exact ih
    · have hm : ¬(k' ∈ cols) := by simpa using hco
      simp only [hco, if_false]
      by_cases hk : k' = k
      · subst hk
        simp [rlookup, hco, hm]
      · simp only [rlookup, hk, if_false]
        exact ih

/-- C1 counterexample: the fare row referencing `ab123` cleans and
upper-cases to exactly the map key `AB123`, yet `_validate_fare_row`
compares the cleaned value WITHOUT upper-casing against the map and rejects
the row as an unresolved reference — resolution is not case-insensitive. -/
theorem C1_counterexample_lowercase_reference_rejected :
    supper (clean_text (rget abFareRow "flight_number" (.str ""))) = "AB123"
    ∧ alookup fmAB "AB123" = some "F1"
    ∧ validateFareRow (cleanFareRow abFareRow) fmAB = ["Рейс не найден: ab123"]
    ∧ transform_fare_data genU fmAB [(0, abFareRow)]
        = .ok ([], [⟨cleanFareRow abFareRow, ["Рейс не найден: ab123"], 0⟩]) :=
  ⟨rfl, rfl, rfl, rfl⟩

/-- C1 amended: fare flight-reference resolution is case-sensitive, not
case-insensitive: given a flight map whose keys are upper-case (as the
completed flight stage produces), a fare row is accepted against the map iff
its cleaned flight number — WITHOUT upper-casing — is exactly a key; a row
whose cleaned flight number is non-empty and not exactly a key is rejected
as an unresolved reference (not a fatal error), and an otherwise valid row
whose cleaned flight number is exactly a key is transformed into an
AcceptedRecord whose `flight_id` is that key's generated identifier. -/
theorem C1_amended_case_sensitive_resolution (uuid : String) (r : Row)
    (fm : List (String × String)) (fn : String)
    (hup : ∀ p ∈ fm, supper p.1 = p.1)
    (hfn : clean_text (rget (cleanFareRow r) "flight_number" (.str "")) = fn) :
    ((fn ≠ "" ∧ alookup fm fn = none) →
        ("Рейс не найден: " ++ fn) ∈ validateFareRow (cleanFareRow r) fm)
    ∧ (∀ fid, alookup fm fn = some fid →
        validateFareRow (cleanFareRow r) fm = [] →
        ∃ out, transformValidFare uuid (cleanFareRow r) fm = .ok out
          ∧ out.flight_id = fid) := by
  constructor
  · rintro ⟨hne, hnone⟩
    unfold validateFareRow
    rw [hfn]
    have hb : (fn != "" && (alookup fm fn).isNone) = true := by
      simp [hne, hnone]
    simp [hb]
  · intro fid hfid hval
    unfold validateFareRow at hval
    rw [hfn] at hval
    simp only [List.append_eq_nil] at hval
    obtain ⟨⟨⟨h1, _h2⟩, h3⟩, h4⟩ := hval
    have hreq : (FARE_REQUIRED.filter fun f =>
        match rlookup (cleanFareRow r) f with
        | none => true
        | some v => pyIsNA v) = [] := List.map_eq_nil_iff.mp h1
    have hfield : ∀ f ∈ FARE_REQUIRED,
        ∃ v, rlookup (cleanFareRow r) f = some v := by
      intro f hf
      cases hlk : rlookup (cleanFareRow r) f with
      | none =>
        exfalso
        have hmem : f ∈ (FARE_REQUIRED.filter fun f =>
            match rlookup (cleanFareRow r) f with
            | none => true
            | some v => pyIsNA v) := by
          rw [List.mem_filter]
          refine ⟨hf, ?_⟩
          rw [hlk]
        rw [hreq] at hmem
        cases hmem
      | some v => exact ⟨v, rfl⟩
    obtain ⟨fv, hflk⟩ := hfield "flight_number" (by decide)
    obtain ⟨cv, hclk⟩ := hfield "fare_class" (by decide)
    obtain ⟨pv, hplk⟩ := hfield "price" (by decide)
    obtain ⟨sv, hslk⟩ := hfield "available_seats" (by decide)
    have hcfv : clean_text fv = fn := by
      rw [← hfn, rget_of_lookup hflk]
    have hsup : supper fn = fn := hup (fn, fid) (alookup_mem hfid)
    have hcvstr : ∃ s, cv = Value.str s := by
      have hcc : rlookup (cleanFareRow r) "fare_class"
          = (rlookup r "fare_class").map
            (fun v => if FARE_CLEAN_COLS.contains "fare_class" then .str (clean_text v) else v) :=
        rlookup_cleanCols FARE_CLEAN_COLS r "fare_class"
      rw [hclk] at hcc
      cases ho : rlookup r "fare_class" with
      | none => rw [ho] at hcc; exact absurd hcc (by simp)
      | some w =>
        rw [ho] at hcc
        simp at hcc
        exact ⟨clean_text w, hcc⟩
    have hpf : ∃ f, pyFloat pv = .ok f := by
      cases hf : pyFloat pv with
      | ok f => exact ⟨f, rfl⟩
      | error e =>
        exfalso
        rw [rget_of_lookup hplk, hf] at h3
        simp at h3
    have hpn : ∃ n, pyInt sv = .ok n := by
      cases hn : pyInt sv with
      | ok n => exact ⟨n, rfl⟩
      | error e =>
        exfalso
        rw [rget_of_lookup hslk, hn] at h4
        simp at h4
    obtain ⟨s, rfl⟩ := hcvstr
    obtain ⟨f, hf⟩ := hpf
    obtain ⟨n, hn⟩ := hpn
    have htr : transformValidFare uuid (cleanFareRow r) fm
        = .ok ⟨uuid, fid, (alookup FARE_CLASS_MAPPING (supper s)).getD (supper s), f,
            rget (cleanFareRow r) "fare_conditions" .null, n⟩ := by
      simp only [transformValidFare, rindex, hflk, hclk, hplk, hslk, hcfv, hsup, hfid,
        valueUpper, hf, hn]
    exact ⟨_, htr, rfl⟩

/-- C1 amended witness: the amended theorem at the well-formed row
referencing `AB123` exactly — it is accepted and its `flight_id` is the
map's generated identifier `F1`. -/
theorem C1_amended_witness :
    ∃ out, transformValidFare "u" (cleanFareRow okFareRow) fmAB = .ok out
      ∧ out.flight_id = "F1" :=
  (C1_amended_case_sensitive_resolution "u" okFareRow fmAB "AB123"
    (by decide) rfl).2 "F1" rfl rfl

/-- C2 witness: the amended theorem applied to NaN and to a concrete
passenger row with empty email and phone. -/
theorem C2_amended_witness :
    validate_email Value.nan = true
    ∧ "Неверный формат email" ∈
        (validate_passenger_row 0 [("email", Value.str ""), ("phone_number", Value.str "")]).2 := by
  have h := C2_amended_empty_only_for_absent Value.nan 0
    [("email", Value.str ""), ("phone_number", Value.str "")] (by rfl)
  exact ⟨h.1.1, h.2.2.2.1 (by rfl)⟩

end AviaEtl
